import Mathlib

/-!
Shallow embedding of the trend-following strategy implemented in
`src/strategies/tf_strategy.py` (class `TrendFollow`), together with proofs
about the specification claims for it.

Modelling conventions:
* prices, volumes and wall-clock timestamps are rationals (`ℚ`),
  broker position quantities and the broker's integer codes are `ℤ`;
* the side effects of a cycle (order placement, cancellation, order-log
  writes, sleeps, broker re-login) are recorded as an explicit event trace;
* `generate_signal` returns `none` exactly where the Python code would raise
  (indexing `data.index[0]` on an empty frame), and `some (events, state)`
  otherwise; the Python function's return value is always the empty list
  `new_orders`, so the interesting outputs are the trace and the state.
-/

namespace TrendFollow

/-- A timestamp as seen by `_check_min_interval`: either a wall-clock datetime
(`dt`, measured in seconds since an arbitrary epoch) or a non-temporal
positional index (`idx`). -/
inductive TimeIdx where
  | dt (secs : ℚ)
  | idx (n : ℤ)
deriving DecidableEq

/-- Strategy parameters: `self.params` together with the attributes derived
from it in `TrendFollow.__init__`. -/
structure Params where
  trade_num : ℚ
  trade_offset : ℚ
  window_size : ℕ
  volume_threshold : ℚ
  min_interval : ℚ
  backtest_mode : Bool
  take_profit : ℚ
  stop_loss : ℚ
  price_tick : ℚ
deriving DecidableEq

/-- One OHLCV bar: a row of the candle DataFrame, `ts` being its index entry. -/
structure Bar where
  ts : ℚ
  openPrice : ℚ
  high : ℚ
  low : ℚ
  close : ℚ
  volume : ℚ
deriving DecidableEq, Inhabited

/-- The position dictionary returned by `broker.get_position`. -/
structure Position where
  long_tdPosition : ℤ
  long_ydPosition : ℤ
  short_tdPosition : ℤ
  short_ydPosition : ℤ
deriving DecidableEq

/-- The `Order` object: direction 2 = buy, 3 = sell; offset 1 = open,
4 = close today. -/
structure Order where
  instrument : ℕ
  exchange : ℕ
  direction : ℤ
  offset : ℤ
  price : ℚ
  volume : ℤ
  stopPrice : ℚ
  orderPriceType : ℤ
deriving DecidableEq

/-- The mutable per-instrument state of the strategy instance. -/
structure StrategyState where
  last_signal_time : Option TimeIdx
  last_data_time : Option ℚ
  last_entry_price : Option ℚ
deriving DecidableEq

/-- One observable side effect of a cycle: an order placement, an order-log
write (`write_order type point`), a sleep, an order cancellation, or a broker
re-login. -/
inductive Event where
  | place (o : Order)
  | log (ty : ℤ) (point : ℚ)
  | sleep (secs : ℚ)
  | cancel
  | relog
deriving DecidableEq

/-- `TrendFollow._check_min_interval`.  `none` models Python `None` for
`last_signal_time`.  When either timestamp is not a datetime, the code uses
the sentinel elapsed time `time_diff = 10` minutes. -/
def checkMinInterval (last_signal_time : Option TimeIdx) (current_time : TimeIdx)
    (min_interval : ℚ) : Bool :=
  match last_signal_time with
  | none => true
  | some last =>
    let time_diff : ℚ :=
      match current_time, last with
      | TimeIdx.dt c, TimeIdx.dt l => (c - l) / 60
      | _, _ => 10
    decide (time_diff ≥ min_interval)

/-- Truncation toward zero: the behaviour of Python `int()` on a number. -/
def ratTrunc (q : ℚ) : ℤ := if 0 ≤ q then ⌊q⌋ else -⌊-q⌋

/-- `TrendFollow.get_dynamic_volume`: signal-strength position sizing,
at least 1 lot and at most 5 lots. -/
def getDynamicVolume (p : Params) (current_volume window_volume_mean : ℚ) : ℤ :=
  let base_volume := p.trade_num
  let strength := if window_volume_mean > 0 then current_volume / window_volume_mean else 1
  let volume := ratTrunc (base_volume * strength)
  max 1 (min volume 5)

/-- Modelled from the spec (§4.2): the position-sizing contract
`volume = clamp(floor(base_volume * (current_volume / window_volume_mean)), 1, 5)`,
with the strength ratio defaulting to 1 when `window_volume_mean <= 0`.  The
comparison point for the refinement claim about `get_dynamic_volume` (which
truncates toward zero where this floors; the two agree after clamping). -/
def dynamicVolumeSpec (p : Params) (current_volume window_volume_mean : ℚ) : ℤ :=
  max 1 (min
    ⌊p.trade_num *
      (if window_volume_mean > 0 then current_volume / window_volume_mean else 1)⌋ 5)

/-- The four action labels `write_order` can put in a log line. -/
inductive ActionLabel where
  | buyOpen
  | buyClose
  | sellOpen
  | sellClose
deriving DecidableEq

/-- One line of `result/order_book.txt`: `{time} {instrument}，{label}，{price}`. -/
structure LogLine where
  time : ℚ
  instrument : ℕ
  label : ActionLabel
  price : ℚ
deriving DecidableEq

/-- `TrendFollow.write_order`: maps the action code `ty` to the label of the
appended line; any other code raises `ValueError`, modelled as `Except.error`
(nothing is appended in that case). -/
def writeOrder (now : ℚ) (instrument : ℕ) (ty : ℤ) (point : ℚ) :
    Except String LogLine :=
  if ty = 1 then Except.ok ⟨now, instrument, ActionLabel.buyOpen, point⟩
  else if ty = 2 then Except.ok ⟨now, instrument, ActionLabel.buyClose, point⟩
  else if ty = 3 then Except.ok ⟨now, instrument, ActionLabel.sellOpen, point⟩
  else if ty = 4 then Except.ok ⟨now, instrument, ActionLabel.sellClose, point⟩
  else Except.error "Invalid type"

/-- Modelled from the spec (§4.6): the action label derived from the submitted
order's offset AND direction (offset 1 = open, offset 4 = close today;
direction 2 = buy, 3 = sell).  This is the comparison point for the refinement
claim about the order log; the code's `write_order` is keyed on the action
code alone. -/
def labelFromDirectionOffset (direction offset : ℤ) : Option ActionLabel :=
  if direction = 2 ∧ offset = 1 then some ActionLabel.buyOpen
  else if direction = 2 ∧ offset = 4 then some ActionLabel.buyClose
  else if direction = 3 ∧ offset = 1 then some ActionLabel.sellOpen
  else if direction = 3 ∧ offset = 4 then some ActionLabel.sellClose
  else none

/-- The loop body of `place_with_retry`, recursing on the remaining retries.
Each attempt places a copy of the template at the current price, writes a log
line keyed on the template's offset, sleeps `wait_time`, cancels
unconditionally, and moves the price one tick up for a buy (`direction = 2`)
or one tick down otherwise. -/
def retryLoop (proto : Order) (direction : ℤ) (wait_time price_tick : ℚ) :
    ℕ → ℚ → List Event
  | 0, _ => []
  | n + 1, price =>
    Event.place { proto with price := price } ::
    Event.log proto.offset price ::
    Event.sleep wait_time ::
    Event.cancel ::
    retryLoop proto direction wait_time price_tick n
      (if direction = 2 then price + price_tick else price - price_tick)

/-- `TrendFollow.place_with_retry` (the call sites use the defaults
`max_retry = 3`, `wait_time = 30`). -/
def placeWithRetry (p : Params) (proto : Order) (direction : ℤ)
    (max_retry : ℕ) (wait_time : ℚ) : List Event :=
  retryLoop proto direction wait_time p.price_tick max_retry proto.price

/-- The prices of the placed orders of a trace, in submission order. -/
def placedPrices (es : List Event) : List ℚ :=
  es.filterMap fun e =>
    match e with
    | Event.place o => some o.price
    | _ => none

/-- Number of order placements in a trace. -/
def countPlaces (es : List Event) : ℕ :=
  es.countP fun e =>
    match e with
    | Event.place _ => true
    | _ => false

/-- Number of order cancellations in a trace. -/
def countCancels (es : List Event) : ℕ :=
  es.countP fun e =>
    match e with
    | Event.cancel => true
    | _ => false

/-- The closing sell order the long-side risk exit builds: direction 3 (sell),
offset 4 (close today), one tick below the close, for the full long quantity. -/
def closeLongOrder (instrument exchange : ℕ) (current_price : ℚ)
    (long_position : ℤ) : Order :=
  { instrument := instrument, exchange := exchange, direction := 3, offset := 4,
    price := current_price - 1, volume := long_position, stopPrice := 0,
    orderPriceType := 1 }

/-- The closing buy order built for a short position: direction 2 (buy),
offset 4 (close today), one tick above the close, for the full short
quantity. -/
def closeShortOrder (instrument exchange : ℕ) (current_price : ℚ)
    (short_position : ℤ) : Order :=
  { instrument := instrument, exchange := exchange, direction := 2, offset := 4,
    price := current_price + 1, volume := short_position, stopPrice := 0,
    orderPriceType := 1 }

/-- The opening long order: direction 2 (buy), offset 1 (open), entry point
`current_price + trade_offset`, dynamic volume. -/
def openLongOrder (p : Params) (instrument exchange : ℕ) (current_price : ℚ)
    (dynamic_volume : ℤ) : Order :=
  { instrument := instrument, exchange := exchange, direction := 2, offset := 1,
    price := current_price + p.trade_offset, volume := dynamic_volume,
    stopPrice := 0, orderPriceType := 1 }

/-- The opening short order: direction 3 (sell), offset 1 (open), entry point
`current_price - trade_offset`, dynamic volume. -/
def openShortOrder (p : Params) (instrument exchange : ℕ) (current_price : ℚ)
    (dynamic_volume : ℤ) : Order :=
  { instrument := instrument, exchange := exchange, direction := 3, offset := 1,
    price := current_price - p.trade_offset, volume := dynamic_volume,
    stopPrice := 0, orderPriceType := 1 }

/-- The long-position stop-profit/stop-loss block of `generate_signal`
(`if long_position > 0 and self.last_entry_price is not None`).  Returns the
emitted trace and the value of `last_entry_price` afterwards. -/
def longExit (p : Params) (instrument exchange : ℕ) (long_position : ℤ)
    (current_price : ℚ) (last_entry_price : Option ℚ) :
    List Event × Option ℚ :=
  match last_entry_price with
  | none => ([], none)
  | some entry =>
    if long_position > 0 then
      let profit := current_price - entry
      if profit ≥ p.take_profit ∨ profit ≤ -p.stop_loss then
        (placeWithRetry p (closeLongOrder instrument exchange current_price long_position) 3 3 30,
         none)
      else ([], some entry)
    else ([], some entry)

/-- The short-position stop-profit/stop-loss block of `generate_signal`
(`if short_position > 0 and self.last_entry_price is not None`). -/
def shortExit (p : Params) (instrument exchange : ℕ) (short_position : ℤ)
    (current_price : ℚ) (last_entry_price : Option ℚ) :
    List Event × Option ℚ :=
  match last_entry_price with
  | none => ([], none)
  | some entry =>
    if short_position > 0 then
      let profit := entry - current_price
      if profit ≥ p.take_profit ∨ profit ≤ -p.stop_loss then
        (placeWithRetry p (closeShortOrder instrument exchange current_price short_position) 2 3 30,
         none)
      else ([], some entry)
    else ([], some entry)

/-- The whole risk-monitor section: the long block runs first and its updated
`last_entry_price` is what the short block then sees. -/
def riskExit (p : Params) (instrument exchange : ℕ)
    (long_position short_position : ℤ) (current_price : ℚ)
    (last_entry_price : Option ℚ) : List Event × Option ℚ :=
  let l := longExit p instrument exchange long_position current_price last_entry_price
  let s := shortExit p instrument exchange short_position current_price l.2
  (l.1 ++ s.1, s.2)

/-- Maximum of a list of rationals (pandas `.max()`; only applied to nonempty
windows by the strategy). -/
def qmax : List ℚ → ℚ
  | [] => 0
  | x :: xs => xs.foldl max x

/-- Minimum of a list of rationals (pandas `.min()`). -/
def qmin : List ℚ → ℚ
  | [] => 0
  | x :: xs => xs.foldl min x

/-- Mean of a list of rationals (pandas `.mean()`). -/
def qmean (l : List ℚ) : ℚ := l.sum / (l.length : ℚ)

/-- `latest_index = len(data) - 1` (natural subtraction, as in the source the
data is nonempty whenever this is used). -/
def latestIdx (data : List Bar) : ℕ := data.length - 1

/-- The newest bar `data.iloc[latest_index]` of the oldest→newest data. -/
def latestBar (data : List Bar) : Bar := data.getD (latestIdx data) default

/-- The sliding window `data.iloc[start_idx:end_idx]` centred on the latest
bar: `start_idx = max(0, latest - window_size)` (natural subtraction) and
`end_idx = min(len(data), latest + window_size + 1)`. -/
def windowData (p : Params) (data : List Bar) : List Bar :=
  let latest := latestIdx data
  let start := latest - p.window_size
  let stop := min data.length (latest + p.window_size + 1)
  (data.drop start).take (stop - start)

/-- `window_high = window_data['High'].max()`. -/
def windowHigh (p : Params) (data : List Bar) : ℚ :=
  qmax ((windowData p data).map Bar.high)

/-- `window_low = window_data['Low'].min()`. -/
def windowLow (p : Params) (data : List Bar) : ℚ :=
  qmin ((windowData p data).map Bar.low)

/-- `window_volume_mean = window_data['Volume'].mean()`. -/
def windowVolumeMean (p : Params) (data : List Bar) : ℚ :=
  qmean ((windowData p data).map Bar.volume)

/-- The breakout-up condition of `generate_signal`:
`(current_price >= window_high or price_breakout) and volume_surge and
self._check_min_interval(current_time)`, with
`price_breakout = current_price > window_high * 0.999` and
`volume_surge = current_volume > window_volume_mean * volume_threshold`. -/
def upCond (p : Params) (data : List Bar) (last_signal_time : Option TimeIdx) : Bool :=
  let current_price := (latestBar data).close
  let current_volume := (latestBar data).volume
  let wh := windowHigh p data
  let wvm := windowVolumeMean p data
  (decide (current_price ≥ wh) || decide (current_price > wh * (999 / 1000))) &&
  decide (current_volume > wvm * p.volume_threshold) &&
  checkMinInterval last_signal_time (TimeIdx.dt (latestBar data).ts) p.min_interval

/-- The breakout-down condition of `generate_signal`:
`(current_price <= window_low or current_price < window_low * 1.001) and
volume_surge and self._check_min_interval(current_time)`. -/
def downCond (p : Params) (data : List Bar) (last_signal_time : Option TimeIdx) : Bool :=
  let current_price := (latestBar data).close
  let current_volume := (latestBar data).volume
  let wl := windowLow p data
  let wvm := windowVolumeMean p data
  (decide (current_price ≤ wl) || decide (current_price < wl * (1001 / 1000))) &&
  decide (current_volume > wvm * p.volume_threshold) &&
  checkMinInterval last_signal_time (TimeIdx.dt (latestBar data).ts) p.min_interval

/-- The signal-handling branch of `generate_signal` (the `if`/`elif` after the
risk monitor): on a breakout-up, optionally close an open short first (then
`time.sleep(1)`), re-login, and open the long; symmetrically for a
breakout-down.  Returns the emitted trace and the updated
`(last_signal_time, last_entry_price)`. -/
def signalBranch (p : Params) (instrument exchange : ℕ)
    (long_position short_position dynamic_volume : ℤ)
    (current_price current_time : ℚ) (up down : Bool)
    (last_signal_time : Option TimeIdx) (last_entry_price : Option ℚ) :
    List Event × Option TimeIdx × Option ℚ :=
  if up then
    ((if short_position > 0 then
        placeWithRetry p (closeShortOrder instrument exchange current_price short_position) 2 3 30
          ++ [Event.sleep 1]
      else []) ++
      Event.relog ::
        placeWithRetry p (openLongOrder p instrument exchange current_price dynamic_volume) 2 3 30,
     some (TimeIdx.dt current_time), some current_price)
  else if down then
    ((if long_position > 0 then
        placeWithRetry p (closeLongOrder instrument exchange current_price long_position) 3 3 30
          ++ [Event.sleep 1]
      else []) ++
      Event.relog ::
        placeWithRetry p (openShortOrder p instrument exchange current_price dynamic_volume) 3 3 30,
     some (TimeIdx.dt current_time), some current_price)
  else ([], last_signal_time, last_entry_price)

/-- The part of `generate_signal` after the data guards, starting at the
`latest_index < window_size` check (`self.last_data_time` has already been
updated to `data.index[0]` in `st1`). -/
def cycleCore (p : Params) (instrument exchange : ℕ)
    (long_position short_position : ℤ) (data : List Bar)
    (st1 : StrategyState) : List Event × StrategyState :=
  if latestIdx data < p.window_size then ([], st1)
  else
    let current_price := (latestBar data).close
    let current_volume := (latestBar data).volume
    let current_time := (latestBar data).ts
    let dynamic_volume := getDynamicVolume p current_volume (windowVolumeMean p data)
    let risk := riskExit p instrument exchange long_position short_position
      current_price st1.last_entry_price
    let sig := signalBranch p instrument exchange long_position short_position
      dynamic_volume current_price current_time
      (upCond p data st1.last_signal_time) (downCond p data st1.last_signal_time)
      st1.last_signal_time risk.2
    (risk.1 ++ sig.1,
     { last_signal_time := sig.2.1, last_data_time := st1.last_data_time,
       last_entry_price := sig.2.2 })

/-- `TrendFollow.generate_signal`.  `raw` is the frame as delivered by
`broker.get_candles` (newest first); the code reverses it
(`data = data[::-1]`) so that `data` is ordered oldest→newest and
`data.index[0]` is the OLDEST bar.  `now` is `datetime.now()`.
Returns `none` where the Python code would raise an `IndexError`
(`data.index[0]` on an empty frame), and `some (trace, state')` otherwise. -/
def generateSignal (p : Params) (instrument exchange : ℕ) (now : ℚ)
    (raw : List Bar) (pos : Position) (st : StrategyState) :
    Option (List Event × StrategyState) :=
  let data := raw.reverse
  let long_position := pos.long_tdPosition + pos.long_ydPosition
  let short_position := pos.short_tdPosition + pos.short_ydPosition
  if data.length < 2 * p.window_size then some ([], st)
  else
    match data with
    | [] => none
    | d0 :: _ =>
      if st.last_data_time = some d0.ts then some ([], st)
      else if now - d0.ts > 3600 ∧ p.backtest_mode = false then some ([], st)
      else
        some (cycleCore p instrument exchange long_position short_position
          data { st with last_data_time := some d0.ts })

/-! Concrete sample inputs, used to instantiate the claim theorems. -/

/-- A bar whose open and close coincide. -/
def mkBar (t h l c v : ℚ) : Bar :=
  { ts := t, openPrice := c, high := h, low := l, close := c, volume := v }

/-- A quiet bar: high 100, low 90, close 95, volume 10. -/
def quietBar (t : ℚ) : Bar := mkBar t 100 90 95 10

/-- Live-mode parameters matching the defaults of `__init__`:
`trade_num 1, trade_offset 3, window_size 5, volume_threshold 1.5,
min_interval 5, take_profit 10, stop_loss 5, price_tick 1`. -/
def liveParams : Params :=
  { trade_num := 1, trade_offset := 3, window_size := 5, volume_threshold := 3 / 2,
    min_interval := 5, backtest_mode := false, take_profit := 10, stop_loss := 5,
    price_tick := 1 }

/-- The same parameters with `backtest_mode = True`. -/
def btParams : Params :=
  { liveParams with backtest_mode := true }

/-- Ten bars (oldest→newest), nine quiet ones and then an upward breakout bar
at ts 10 (close 105 above every window high, volume 100 ≫ mean). -/
def dataUp : List Bar :=
  [quietBar 1, quietBar 2, quietBar 3, quietBar 4, quietBar 5, quietBar 6,
   quietBar 7, quietBar 8, quietBar 9, mkBar 10 105 104 105 100]

/-- `dataUp` as the broker delivers it: newest first. -/
def rawUp : List Bar := dataUp.reverse

/-- Ten bars (oldest→newest), nine quiet ones and then a downward breakout bar
at ts 10 (close 85 below every window low, volume 100 ≫ mean). -/
def dataDown : List Bar :=
  [quietBar 1, quietBar 2, quietBar 3, quietBar 4, quietBar 5, quietBar 6,
   quietBar 7, quietBar 8, quietBar 9, mkBar 10 86 85 85 100]

/-- `dataDown` as the broker delivers it: newest first. -/
def rawDown : List Bar := dataDown.reverse

/-- Ten quiet bars with timestamps 91…100 (oldest→newest). -/
def dataDup : List Bar :=
  [quietBar 91, quietBar 92, quietBar 93, quietBar 94, quietBar 95, quietBar 96,
   quietBar 97, quietBar 98, quietBar 99, quietBar 100]

/-- `dataDup` as the broker delivers it: newest first. -/
def rawDup : List Bar := dataDup.reverse

/-- No open position. -/
def posFlat : Position :=
  { long_tdPosition := 0, long_ydPosition := 0, short_tdPosition := 0, short_ydPosition := 0 }

/-- A short position of 2 lots (1 today + 1 carried). -/
def posShort2 : Position :=
  { long_tdPosition := 0, long_ydPosition := 0, short_tdPosition := 1, short_ydPosition := 1 }

/-- A long position of 2 lots (1 today + 1 carried). -/
def posLong2 : Position :=
  { long_tdPosition := 1, long_ydPosition := 1, short_tdPosition := 0, short_ydPosition := 0 }

/-- Fresh strategy state, as after `__init__`. -/
def stInit : StrategyState :=
  { last_signal_time := none, last_data_time := none, last_entry_price := none }

/-- State whose stored `last_data_time` is 100 — the NEWEST timestamp of
`dataDup` (what the spec claims the guard compares against). -/
def stDup : StrategyState :=
  { last_signal_time := none, last_data_time := some 100, last_entry_price := none }

/-- State whose stored `last_data_time` is 91 — the OLDEST timestamp of
`dataDup` (what the code actually stores and compares against). -/
def stDup91 : StrategyState :=
  { last_signal_time := none, last_data_time := some 91, last_entry_price := none }

/-! Helper lemmas. -/

theorem ratTrunc_mono {a b : ℚ} (h : a ≤ b) : ratTrunc a ≤ ratTrunc b := by
  unfold ratTrunc
  split_ifs with ha hb hb
  · exact Int.floor_le_floor h
  · exact absurd (le_trans ha h) hb
  · have h1 : (0 : ℤ) ≤ ⌊b⌋ := Int.floor_nonneg.mpr hb
    have h2 : (0 : ℤ) ≤ ⌊-a⌋ := Int.floor_nonneg.mpr (by linarith [not_le.mp ha])
    omega
  · have h3 : -b ≤ -a := by linarith
    have h4 := Int.floor_le_floor h3
    omega

theorem clamp_ratTrunc_eq_clamp_floor (q : ℚ) :
    max 1 (min (ratTrunc q) 5) = max 1 (min ⌊q⌋ 5) := by
  unfold ratTrunc
  split_ifs with h
  · rfl
  · have h1 : ⌊q⌋ ≤ 0 := Int.floor_nonpos (not_le.mp h).le
    have h2 : (0 : ℤ) ≤ ⌊-q⌋ := Int.floor_nonneg.mpr (by linarith [not_le.mp h])
    omega

theorem le_foldl_max (xs : List ℚ) (a : ℚ) : a ≤ xs.foldl max a := by
  induction xs generalizing a with
  | nil => exact le_refl a
  | cons x xs ih => exact le_trans (le_max_left a x) (ih (max a x))

theorem mem_le_foldl_max (xs : List ℚ) (a x : ℚ) (hx : x ∈ xs) :
    x ≤ xs.foldl max a := by
  induction xs generalizing a with
  | nil => cases hx
  | cons y ys ih =>
    rcases List.mem_cons.mp hx with rfl | hmem
    · exact le_trans (le_max_right a x) (le_foldl_max ys (max a x))
    · exact ih (max a y) hmem

theorem le_qmax (l : List ℚ) (x : ℚ) (hx : x ∈ l) : x ≤ qmax l := by
  cases l with
  | nil => cases hx
  | cons y ys =>
    rcases List.mem_cons.mp hx with rfl | hmem
    · exact le_foldl_max ys x
    · exact mem_le_foldl_max ys y x hmem

theorem foldl_min_le (xs : List ℚ) (a : ℚ) : xs.foldl min a ≤ a := by
  induction xs generalizing a with
  | nil => exact le_refl a
  | cons x xs ih => exact le_trans (ih (min a x)) (min_le_left a x)

theorem foldl_min_le_mem (xs : List ℚ) (a x : ℚ) (hx : x ∈ xs) :
    xs.foldl min a ≤ x := by
  induction xs generalizing a with
  | nil => cases hx
  | cons y ys ih =>
    rcases List.mem_cons.mp hx with rfl | hmem
    · exact le_trans (foldl_min_le ys (min a x)) (min_le_right a x)
    · exact ih (min a y) hmem

theorem qmin_le (l : List ℚ) (x : ℚ) (hx : x ∈ l) : qmin l ≤ x := by
  cases l with
  | nil => cases hx
  | cons y ys =>
    rcases List.mem_cons.mp hx with rfl | hmem
    · exact foldl_min_le ys x
    · exact foldl_min_le_mem ys y x hmem

theorem latestBar_mem_windowData (p : Params) (data : List Bar) (h : data ≠ []) :
    latestBar data ∈ windowData p data := by
  have hpos : 0 < data.length := List.length_pos.mpr h
  have h1 : latestIdx data < data.length := by
    unfold latestIdx; omega
  unfold latestBar windowData
  set start := latestIdx data - p.window_size with hstart
  set stop := min data.length (latestIdx data + p.window_size + 1) with hstop
  have hs1 : start ≤ latestIdx data := Nat.sub_le _ _
  have hs2 : latestIdx data < stop := by omega
  have h3 : latestIdx data - start < ((data.drop start).take (stop - start)).length := by
    rw [List.length_take, List.length_drop]
    omega
  have h4 : ((data.drop start).take (stop - start))[latestIdx data - start] =
      data[latestIdx data] := by
    rw [List.getElem_take, List.getElem_drop]
    congr 1
    omega
  rw [List.getD_eq_getElem data default h1, ← h4]
  exact List.getElem_mem h3

/-! Claim theorems. -/

/-- C5 counterexample: with non-temporal (positional-index) timestamps and
`min_interval = 15`, the gate is NOT satisfied, although the claim says
non-temporal indices default to "satisfied" for every value of
`min_interval`.  The code uses the sentinel elapsed time 10 and returns
`10 >= min_interval`. -/
theorem c5_counterexample :
    checkMinInterval (some (TimeIdx.idx 0)) (TimeIdx.idx 1) 15 = false := by
  decide

/-- C5 (amended): the min-interval gate returns satisfied iff
`last_signal_time` is unset, or both timestamps are wall-clock datetimes and
the elapsed minutes since `last_signal_time` are `≥ min_interval` (so a
breakout at exactly `min_interval` elapsed minutes fires and one strictly
within does not), or the timestamps are not both datetimes, in which case the
gate uses a sentinel elapsed time of 10 minutes and is satisfied iff
`min_interval ≤ 10`. -/
theorem c5_min_interval_gate (last : Option TimeIdx) (cur : TimeIdx) (m : ℚ) :
    checkMinInterval last cur m = true ↔
      last = none ∨
      (∃ lq cq, last = some (TimeIdx.dt lq) ∧ cur = TimeIdx.dt cq ∧
        (cq - lq) / 60 ≥ m) ∨
      ((∀ lq cq, ¬(last = some (TimeIdx.dt lq) ∧ cur = TimeIdx.dt cq)) ∧
        m ≤ 10) := by
  cases last with
  | none => simp [checkMinInterval]
  | some l =>
    cases l with
    | dt lv =>
      cases cur with
      | dt cv =>
        simp only [checkMinInterval, decide_eq_true_eq]
        constructor
        · intro h
          exact Or.inr (Or.inl ⟨lv, cv, rfl, rfl, h⟩)
        · rintro (h | ⟨lq, cq, hl, hc, h⟩ | ⟨hall, _⟩)
          · exact absurd h (by simp)
          · injection hl with h1
            injection h1 with h2
            injection hc with h3
            subst h2
            subst h3
            exact h
          · exact absurd ⟨rfl, rfl⟩ (hall lv cv)
      | idx n =>
        simp only [checkMinInterval, decide_eq_true_eq]
        constructor
        · intro h
          refine Or.inr (Or.inr ⟨?_, h⟩)
          rintro lq cq ⟨-, hc⟩
          exact TimeIdx.noConfusion hc
        · rintro (h | ⟨lq, cq, hl, hc, h⟩ | ⟨-, h⟩)
          · exact absurd h (by simp)
          · exact TimeIdx.noConfusion hc
          · exact h
    | idx k =>
      cases cur <;>
      · simp only [checkMinInterval, decide_eq_true_eq]
        constructor
        · intro h
          refine Or.inr (Or.inr ⟨?_, h⟩)
          rintro lq cq ⟨hl, -⟩
          injection hl with h1
          exact TimeIdx.noConfusion h1
        · rintro (h | ⟨lq, cq, hl, hc, h⟩ | ⟨-, h⟩)
          · exact absurd h (by simp)
          · injection hl with h1
            exact TimeIdx.noConfusion h1
          · exact h

/-- C6: `get_dynamic_volume` equals the spec formula
`clamp(floor(base_volume * strength), 1, 5)` (strength defaulting to 1 when
the window volume mean is not positive), its result always lies in `[1, 5]`,
and it is monotone non-decreasing in the ratio
`current_volume / window_volume_mean` for positive means (given a
non-negative configured base volume). -/
theorem c6_dynamic_volume (p : Params) (cv wvm cv' wvm' : ℚ) :
    getDynamicVolume p cv wvm = dynamicVolumeSpec p cv wvm ∧
    1 ≤ getDynamicVolume p cv wvm ∧
    getDynamicVolume p cv wvm ≤ 5 ∧
    (0 ≤ p.trade_num → 0 < wvm → 0 < wvm' → cv / wvm ≤ cv' / wvm' →
      getDynamicVolume p cv wvm ≤ getDynamicVolume p cv' wvm') := by
  refine ⟨clamp_ratTrunc_eq_clamp_floor _, le_max_left 1 _,
    max_le (by norm_num) (min_le_right _ _), ?_⟩
  intro htn h1 h2 hle
  unfold getDynamicVolume
  rw [if_pos h1, if_pos h2]
  have hmul : p.trade_num * (cv / wvm) ≤ p.trade_num * (cv' / wvm') :=
    mul_le_mul_of_nonneg_left hle htn
  exact max_le_max le_rfl (min_le_min (ratTrunc_mono hmul) le_rfl)

/-- C6 witness: at `trade_num = 1`, volume 100 against window mean 25 the
sizer returns `clamp(floor(4), 1, 5) = 4`, and it is below the sizing for the
larger ratio `300 / 30`. -/
theorem c6_dynamic_volume_witness :
    getDynamicVolume liveParams 100 25 = dynamicVolumeSpec liveParams 100 25 ∧
    getDynamicVolume liveParams 100 25 ≤ getDynamicVolume liveParams 300 30 :=
  ⟨(c6_dynamic_volume liveParams 100 25 300 30).1,
   (c6_dynamic_volume liveParams 100 25 300 30).2.2.2 (by norm_num [liveParams])
     (by norm_num) (by norm_num) (by norm_num)⟩

/-- C8: `write_order` is called by `place_with_retry` with
`type = order_proto.offset`, so the label is derived from the offset code
alone.  A closing BUY (direction 2, offset 4 — e.g. the short-position risk
exit) is therefore logged as `sellClose` (卖平) on every one of the 3 retry
attempts, while the label derived from the order's direction and offset is
`buyClose` (买平): the logged label does not reflect the submitted order's
direction.  Unknown action codes are rejected with an error, as claimed. -/
theorem c8_order_log_mislabel :
    (closeShortOrder 7 1 100 2).direction = 2 ∧
    (closeShortOrder 7 1 100 2).offset = 4 ∧
    writeOrder 0 7 (closeShortOrder 7 1 100 2).offset 101 =
      Except.ok ⟨0, 7, ActionLabel.sellClose, 101⟩ ∧
    labelFromDirectionOffset (closeShortOrder 7 1 100 2).direction
        (closeShortOrder 7 1 100 2).offset = some ActionLabel.buyClose ∧
    ActionLabel.sellClose ≠ ActionLabel.buyClose ∧
    (placeWithRetry liveParams (closeShortOrder 7 1 100 2) 2 3 30).countP
        (fun ev =>
          match ev with
          | Event.log ty _ => decide (ty = 4)
          | _ => false) = 3 ∧
    writeOrder 0 7 9 0 = Except.error "Invalid type" := by
  refine ⟨rfl, rfl, rfl, rfl, by decide, rfl, rfl⟩

/-- C2: `place_with_retry` with `max_retry = 3` issues exactly 3 placements
and exactly 3 cancellations; each attempt is placement → log line → fixed
wait → unconditional cancel; the price moves by exactly one `price_tick`
between consecutive attempts — upward for a buy (`direction = 2`), downward
for a sell (`direction = 3`) — so the third attempt's price differs from the
template price by exactly 2 ticks. -/
theorem c2_retry_reprice (p : Params) (proto : Order) (direction : ℤ) (w : ℚ) :
    countPlaces (placeWithRetry p proto direction 3 w) = 3 ∧
    countCancels (placeWithRetry p proto direction 3 w) = 3 ∧
    (direction = 2 →
      placeWithRetry p proto direction 3 w =
        [Event.place { proto with price := proto.price },
         Event.log proto.offset proto.price, Event.sleep w, Event.cancel,
         Event.place { proto with price := proto.price + p.price_tick },
         Event.log proto.offset (proto.price + p.price_tick),
         Event.sleep w, Event.cancel,
         Event.place { proto with price := proto.price + 2 * p.price_tick },
         Event.log proto.offset (proto.price + 2 * p.price_tick),
         Event.sleep w, Event.cancel]) ∧
    (direction = 3 →
      placeWithRetry p proto direction 3 w =
        [Event.place { proto with price := proto.price },
         Event.log proto.offset proto.price, Event.sleep w, Event.cancel,
         Event.place { proto with price := proto.price - p.price_tick },
         Event.log proto.offset (proto.price - p.price_tick),
         Event.sleep w, Event.cancel,
         Event.place { proto with price := proto.price - 2 * p.price_tick },
         Event.log proto.offset (proto.price - 2 * p.price_tick),
         Event.sleep w, Event.cancel]) := by
  refine ⟨rfl, rfl, ?_, ?_⟩
  · rintro rfl
    have h2 : proto.price + p.price_tick + p.price_tick =
        proto.price + 2 * p.price_tick := by ring
    simp [placeWithRetry, retryLoop, h2]
  · rintro rfl
    have h2 : proto.price - p.price_tick - p.price_tick =
        proto.price - 2 * p.price_tick := by ring
    have h3 : (3 : ℤ) ≠ 2 := by decide
    simp [placeWithRetry, retryLoop, h2, h3]

/-- C2 witness: a concrete buy template at price 100 with tick 1 is submitted
at 100, 101, 102, and a sell template at 100, 99, 98; both issue 3 placements
and 3 cancellations. -/
theorem c2_retry_reprice_witness :
    countPlaces (placeWithRetry liveParams (openLongOrder liveParams 7 1 97 1) 2 3 30) = 3 ∧
    countCancels (placeWithRetry liveParams (openLongOrder liveParams 7 1 97 1) 2 3 30) = 3 ∧
    placedPrices (placeWithRetry liveParams (openLongOrder liveParams 7 1 97 1) 2 3 30) =
      [100, 101, 102] ∧
    placedPrices (placeWithRetry liveParams (closeLongOrder 7 1 101 2) 3 3 30) =
      [100, 99, 98] := by
  have h2 := c2_retry_reprice liveParams (openLongOrder liveParams 7 1 97 1) 2 30
  have h3 := c2_retry_reprice liveParams (closeLongOrder 7 1 101 2) 3 30
  refine ⟨h2.1, h2.2.1, ?_, ?_⟩
  · rw [h2.2.2.1 rfl]
    with_unfolding_all decide
  · rw [h3.2.2.2 rfl]
    with_unfolding_all decide

/-- C1: with a positive long quantity and `last_entry_price = entry` set, the
long risk block computes `profit = close - entry` and emits the full
`place_with_retry` sequence for a closing sell (direction 3, offset 4 =
close-today, full long quantity) and clears `last_entry_price` if and only if
`profit ≥ take_profit ∨ profit ≤ -stop_loss` (otherwise it emits nothing and
keeps the entry price); the symmetric rule with `profit = entry - close` and
a closing buy holds for the short block.  With `entry = 100`,
`take_profit = 10`, `stop_loss = 5` a long position closes exactly when
`close ≥ 110 ∨ close ≤ 95`, hence not at `close = 105`. -/
theorem c1_risk_monitor (p : Params) (i e : ℕ) (lp sp : ℤ) (price entry : ℚ)
    (hl : 0 < lp) (hs : 0 < sp) :
    (longExit p i e lp price (some entry) =
        (placeWithRetry p (closeLongOrder i e price lp) 3 3 30, none) ↔
      price - entry ≥ p.take_profit ∨ price - entry ≤ -p.stop_loss) ∧
    (¬(price - entry ≥ p.take_profit ∨ price - entry ≤ -p.stop_loss) →
      longExit p i e lp price (some entry) = ([], some entry)) ∧
    (shortExit p i e sp price (some entry) =
        (placeWithRetry p (closeShortOrder i e price sp) 2 3 30, none) ↔
      entry - price ≥ p.take_profit ∨ entry - price ≤ -p.stop_loss) ∧
    (¬(entry - price ≥ p.take_profit ∨ entry - price ≤ -p.stop_loss) →
      shortExit p i e sp price (some entry) = ([], some entry)) ∧
    (∀ c : ℚ, (longExit liveParams 0 0 1 c (some 100)).2 = none ↔
      c ≥ 110 ∨ c ≤ 95) ∧
    longExit liveParams 0 0 1 105 (some 100) = ([], some 100) := by
  refine ⟨?_, ?_, ?_, ?_, ?_, ?_⟩
  · simp only [longExit]
    by_cases h2 : price - entry ≥ p.take_profit ∨ price - entry ≤ -p.stop_loss
    · rw [if_pos (show lp > 0 from hl), if_pos h2]
      exact iff_of_true rfl h2
    · rw [if_pos (show lp > 0 from hl), if_neg h2]
      exact iff_of_false (by simp [Prod.ext_iff]) h2
  · intro hc
    simp only [longExit]
    rw [if_pos (show lp > 0 from hl), if_neg hc]
  · simp only [shortExit]
    by_cases h2 : entry - price ≥ p.take_profit ∨ entry - price ≤ -p.stop_loss
    · rw [if_pos (show sp > 0 from hs), if_pos h2]
      exact iff_of_true rfl h2
    · rw [if_pos (show sp > 0 from hs), if_neg h2]
      exact iff_of_false (by simp [Prod.ext_iff]) h2
  · intro hc
    simp only [shortExit]
    rw [if_pos (show sp > 0 from hs), if_neg hc]
  · intro c
    have hiff : (c - 100 ≥ liveParams.take_profit ∨
        c - 100 ≤ -liveParams.stop_loss) ↔ (c ≥ 110 ∨ c ≤ 95) := by
      show (c - 100 ≥ 10 ∨ c - 100 ≤ -5) ↔ (c ≥ 110 ∨ c ≤ 95)
      constructor
      · rintro (h | h)
        · exact Or.inl (by linarith)
        · exact Or.inr (by linarith)
      · rintro (h | h)
        · exact Or.inl (by linarith)
        · exact Or.inr (by linarith)
    simp only [longExit]
    rw [if_pos (show (1 : ℤ) > 0 by norm_num)]
    by_cases h2 : c - 100 ≥ liveParams.take_profit ∨ c - 100 ≤ -liveParams.stop_loss
    · rw [if_pos h2]
      exact iff_of_true rfl (hiff.mp h2)
    · rw [if_neg h2]
      exact iff_of_false (by simp) (fun h => h2 (hiff.mpr h))
  · have hneg : ¬((105 : ℚ) - 100 ≥ liveParams.take_profit ∨
        (105 : ℚ) - 100 ≤ -liveParams.stop_loss) := by
      show ¬((105 : ℚ) - 100 ≥ 10 ∨ (105 : ℚ) - 100 ≤ -5)
      norm_num
    simp only [longExit]
    rw [if_pos (show (1 : ℤ) > 0 by norm_num), if_neg hneg]

/-- C1 witness: a 2-lot long with entry 100 closes at 110 (the full retry
sequence for the closing sell is emitted and the entry price is cleared) and
does not close at 105. -/
theorem c1_risk_monitor_witness :
    longExit liveParams 0 0 2 110 (some 100) =
      (placeWithRetry liveParams (closeLongOrder 0 0 110 2) 3 3 30, none) ∧
    longExit liveParams 0 0 1 105 (some 100) = ([], some 100) :=
  ⟨(c1_risk_monitor liveParams 0 0 2 1 110 100 (by decide) (by decide)).1.mpr
      (by norm_num [liveParams]),
   (c1_risk_monitor liveParams 0 0 1 1 105 100 (by decide) (by decide)).2.2.2.2.2⟩

/-- C10: when the broker reports both sides open with `last_entry_price` set
and the long-side exit condition holds, the long block clears
`last_entry_price` before the short block runs its check, so the whole risk
section emits only the long-side closing sell sequence and no short-side
risk-exit order (the short block on a cleared entry price emits nothing). -/
theorem c10_single_risk_exit (p : Params) (i e : ℕ) (lp sp : ℤ)
    (price entry : ℚ) (hl : 0 < lp) (hs : 0 < sp)
    (hc : price - entry ≥ p.take_profit ∨ price - entry ≤ -p.stop_loss) :
    riskExit p i e lp sp price (some entry) =
      (placeWithRetry p (closeLongOrder i e price lp) 3 3 30, none) ∧
    shortExit p i e sp price none = ([], none) := by
  have hlong : longExit p i e lp price (some entry) =
      (placeWithRetry p (closeLongOrder i e price lp) 3 3 30, none) := by
    simp only [longExit]
    rw [if_pos (show lp > 0 from hl), if_pos hc]
  refine ⟨?_, rfl⟩
  unfold riskExit
  rw [hlong]
  show (placeWithRetry p (closeLongOrder i e price lp) 3 3 30 ++
    (shortExit p i e sp price none).1, (shortExit p i e sp price none).2) = _
  rw [show shortExit p i e sp price none = ([], none) from rfl]
  simp

/-- C10 witness: long 2, short 3, entry 100, close 110 — only the 12 events
of the long-side closing retry sequence are emitted and the entry price ends
cleared; no short-side order appears. -/
theorem c10_single_risk_exit_witness :
    riskExit liveParams 0 0 2 3 110 (some 100) =
      (placeWithRetry liveParams (closeLongOrder 0 0 110 2) 3 3 30, none) :=
  (c10_single_risk_exit liveParams 0 0 2 3 110 100 (by decide) (by decide)
    (by norm_num [liveParams])).1

/-- C9: the sliding window is centred on (and therefore contains) the latest
bar, so for any well-formed latest bar (`low ≤ close ≤ high`):
whenever no breakout-up fires, `window_high ≥ close`, and whenever no
breakout-down fires, `window_low ≤ close`.  (Both inequalities in fact hold
unconditionally, which implies the claimed conditional form.) -/
theorem c9_detector_consistency (p : Params) (data : List Bar)
    (lastSig : Option TimeIdx) (hne : data ≠ [])
    (hch : (latestBar data).close ≤ (latestBar data).high)
    (hlc : (latestBar data).low ≤ (latestBar data).close) :
    (upCond p data lastSig = false →
      (latestBar data).close ≤ windowHigh p data) ∧
    (downCond p data lastSig = false →
      windowLow p data ≤ (latestBar data).close) := by
  have hmem := latestBar_mem_windowData p data hne
  have hhigh : (latestBar data).high ∈ (windowData p data).map Bar.high :=
    List.mem_map_of_mem _ hmem
  have hlow : (latestBar data).low ∈ (windowData p data).map Bar.low :=
    List.mem_map_of_mem _ hmem
  exact ⟨fun _ => le_trans hch (le_qmax _ _ hhigh),
    fun _ => le_trans (qmin_le _ _ hlow) hlc⟩

/-- C9 witness: on the quiet ten-bar window neither breakout fires and both
window bounds bracket the latest close. -/
theorem c9_detector_consistency_witness :
    (latestBar dataDup).close ≤ windowHigh liveParams dataDup ∧
    windowLow liveParams dataDup ≤ (latestBar dataDup).close := by
  have h := c9_detector_consistency liveParams dataDup none (by decide)
    (by decide) (by decide)
  exact ⟨h.1 (by with_unfolding_all decide), h.2 (by with_unfolding_all decide)⟩

/-- C3 counterexample: the duplicate-data guard compares (and stores)
`data.index[0]`, which after the `data[::-1]` reversal is the OLDEST bar of
the snapshot, not the newest.  Here the previous cycle stored
`last_data_time = 100` and the new snapshot's NEWEST bar also has timestamp
100 (its oldest has 91), so by the claim the cycle must be a no-op with
state unchanged — but the code does not skip: it runs the cycle and
overwrites `last_data_time` with 91. -/
theorem c3_counterexample :
    (rawDup.reverse.getLast?).map Bar.ts = stDup.last_data_time ∧
    Option.map (fun r => r.2.last_data_time)
      (generateSignal liveParams 0 0 200 rawDup posFlat stDup) =
      some (some 91) ∧
    ¬(generateSignal liveParams 0 0 200 rawDup posFlat stDup =
      some ([], stDup)) := by
  refine ⟨by decide, ?_, ?_⟩
  · with_unfolding_all decide
  · with_unfolding_all decide

/-- C3 (amended): the duplicate-data guard keys on the FIRST bar of the
normalized oldest→newest sequence (`data.index[0]`, the oldest bar — the
same value the previous cycle stored into `last_data_time`), not on the
newest bar's timestamp.  For every cycle in which that oldest bar's
timestamp equals the stored `last_data_time`, the cycle is a no-op: the
entry point returns an empty trace (no orders placed or logged) and the
state — `last_signal_time`, `last_data_time`, `last_entry_price` — is
returned unchanged. -/
theorem c3_duplicate_guard (p : Params) (i e : ℕ) (now : ℚ) (raw : List Bar)
    (pos : Position) (st : StrategyState) (d0 : Bar)
    (h0 : raw.reverse.head? = some d0)
    (hdup : st.last_data_time = some d0.ts) :
    generateSignal p i e now raw pos st = some ([], st) := by
  simp only [generateSignal]
  cases hr : raw.reverse with
  | nil =>
    rw [hr] at h0
    cases h0
  | cons b tail =>
    rw [hr] at h0
    replace h0 : b = d0 := by simpa using h0
    subst h0
    by_cases hlen : (b :: tail).length < 2 * p.window_size
    · rw [if_pos hlen]
    · rw [if_neg hlen]
      show (if st.last_data_time = some b.ts then some ([], st) else _) = _
      rw [if_pos hdup]

/-- C3 witness: with the stored `last_data_time` equal to the snapshot's
oldest timestamp 91, the cycle is skipped with the state unchanged. -/
theorem c3_duplicate_guard_witness :
    generateSignal liveParams 0 0 200 rawDup posFlat stDup91 =
      some ([], stDup91) :=
  c3_duplicate_guard liveParams 0 0 200 rawDup posFlat stDup91 (quietBar 91)
    (by decide) (by decide)

/-- C4: if the newest bar is more than 1 hour older than the wall clock
(so, the bars being in chronological order, the oldest bar checked by the
code is as well), a live-mode cycle is skipped — empty trace, state
unchanged — while a backtest-mode cycle ignores staleness and continues
processing (its resulting state records the processed snapshot in
`last_data_time`). -/
theorem c4_staleness_guard (p : Params) (i e : ℕ) (now : ℚ) (raw : List Bar)
    (pos : Position) (st : StrategyState) (d0 dn : Bar)
    (h0 : raw.reverse.head? = some d0)
    (hn : raw.reverse.getLast? = some dn)
    (hord : d0.ts ≤ dn.ts)
    (hstale : now - dn.ts > 3600)
    (hlen : 2 * p.window_size ≤ raw.length)
    (hdup : st.last_data_time ≠ some d0.ts) :
    (p.backtest_mode = false →
      generateSignal p i e now raw pos st = some ([], st)) ∧
    (p.backtest_mode = true →
      generateSignal p i e now raw pos st ≠ none ∧
      ∀ r, generateSignal p i e now raw pos st = some r →
        r.2.last_data_time = some d0.ts) := by
  have hstale0 : now - d0.ts > 3600 := by linarith
  obtain ⟨tail, hr⟩ : ∃ t, raw.reverse = d0 :: t := by
    cases hE : raw.reverse with
    | nil =>
      rw [hE] at h0
      cases h0
    | cons x t =>
      rw [hE] at h0
      replace h0 : x = d0 := by simpa using h0
      exact ⟨t, by rw [h0]⟩
  have hlen2 : ¬((d0 :: tail).length < 2 * p.window_size) := by
    have hL := congrArg List.length hr
    rw [List.length_reverse] at hL
    omega
  have hmain : generateSignal p i e now raw pos st =
      if now - d0.ts > 3600 ∧ p.backtest_mode = false then some ([], st)
      else some (cycleCore p i e (pos.long_tdPosition + pos.long_ydPosition)
        (pos.short_tdPosition + pos.short_ydPosition) (d0 :: tail)
        { st with last_data_time := some d0.ts }) := by
    simp only [generateSignal]
    rw [hr, if_neg hlen2]
    show (if st.last_data_time = some d0.ts then some ([], st) else _) = _
    rw [if_neg hdup]
  constructor
  · intro hbt
    rw [hmain, if_pos ⟨hstale0, hbt⟩]
  · intro hbt
    have hcond : ¬(now - d0.ts > 3600 ∧ p.backtest_mode = false) := by
      rintro ⟨-, hf⟩
      rw [hbt] at hf
      cases hf
    rw [hmain, if_neg hcond]
    refine ⟨by simp, ?_⟩
    intro r hrr
    injection hrr with hrr
    rw [← hrr]
    simp only [cycleCore]
    split
    · rfl
    · rfl

/-- C4 witness: a snapshot whose newest bar is 2 hours old (`now = 7210`,
newest ts 10) is skipped with state unchanged in live mode, and processed in
backtest mode (its oldest timestamp 1 is recorded in `last_data_time`), all
else equal. -/
theorem c4_staleness_guard_witness :
    generateSignal liveParams 0 0 7210 rawUp posFlat stInit =
      some ([], stInit) ∧
    Option.map (fun r => r.2.last_data_time)
      (generateSignal btParams 0 0 7210 rawUp posFlat stInit) =
      some (some 1) := by
  constructor
  · exact (c4_staleness_guard liveParams 0 0 7210 rawUp posFlat stInit
      (quietBar 1) (mkBar 10 105 104 105 100) (by decide) (by decide)
      (by decide) (by with_unfolding_all decide) (by decide) (by decide)).1 rfl
  · have h := (c4_staleness_guard btParams 0 0 7210 rawUp posFlat stInit
      (quietBar 1) (mkBar 10 105 104 105 100) (by decide) (by decide)
      (by decide) (by with_unfolding_all decide) (by decide) (by decide)).2 rfl
    obtain ⟨hne, hall⟩ := h
    cases hg : generateSignal btParams 0 0 7210 rawUp posFlat stInit with
    | none => exact absurd hg hne
    | some r =>
      simpa using hall r hg

/-- C7: in a cycle whose data guards pass, when a breakout-up fires while the
reported short quantity is positive, the trace is exactly: the risk-monitor
events, then the full closing-buy retry sequence for the whole short
quantity, then the fixed settle sleep, then the re-login and the opening-long
retry sequence — so every closing-buy submission strictly precedes every
opening submission.  Symmetrically, a breakout-down with an open long emits
the closing-sell retry sequence strictly before the opening-short one. -/
theorem c7_reversal_order (p : Params) (i e : ℕ) (now : ℚ) (raw : List Bar)
    (pos : Position) (st : StrategyState) (d0 : Bar)
    (h0 : raw.reverse.head? = some d0)
    (hlen : 2 * p.window_size ≤ raw.length)
    (hdup : st.last_data_time ≠ some d0.ts)
    (hfresh : ¬(now - d0.ts > 3600 ∧ p.backtest_mode = false))
    (hws : ¬(latestIdx raw.reverse < p.window_size)) :
    (upCond p raw.reverse st.last_signal_time = true →
      0 < pos.short_tdPosition + pos.short_ydPosition →
      generateSignal p i e now raw pos st = some (
        (riskExit p i e (pos.long_tdPosition + pos.long_ydPosition)
          (pos.short_tdPosition + pos.short_ydPosition)
          (latestBar raw.reverse).close st.last_entry_price).1 ++
        (placeWithRetry p (closeShortOrder i e (latestBar raw.reverse).close
            (pos.short_tdPosition + pos.short_ydPosition)) 2 3 30 ++
          Event.sleep 1 :: Event.relog ::
          placeWithRetry p (openLongOrder p i e (latestBar raw.reverse).close
            (getDynamicVolume p (latestBar raw.reverse).volume
              (windowVolumeMean p raw.reverse))) 2 3 30),
        { last_signal_time := some (TimeIdx.dt (latestBar raw.reverse).ts),
          last_data_time := some d0.ts,
          last_entry_price := some (latestBar raw.reverse).close })) ∧
    (upCond p raw.reverse st.last_signal_time = false →
      downCond p raw.reverse st.last_signal_time = true →
      0 < pos.long_tdPosition + pos.long_ydPosition →
      generateSignal p i e now raw pos st = some (
        (riskExit p i e (pos.long_tdPosition + pos.long_ydPosition)
          (pos.short_tdPosition + pos.short_ydPosition)
          (latestBar raw.reverse).close st.last_entry_price).1 ++
        (placeWithRetry p (closeLongOrder i e (latestBar raw.reverse).close
            (pos.long_tdPosition + pos.long_ydPosition)) 3 3 30 ++
          Event.sleep 1 :: Event.relog ::
          placeWithRetry p (openShortOrder p i e (latestBar raw.reverse).close
            (getDynamicVolume p (latestBar raw.reverse).volume
              (windowVolumeMean p raw.reverse))) 3 3 30),
        { last_signal_time := some (TimeIdx.dt (latestBar raw.reverse).ts),
          last_data_time := some d0.ts,
          last_entry_price := some (latestBar raw.reverse).close })) := by
  obtain ⟨tail, hr⟩ : ∃ t, raw.reverse = d0 :: t := by
    cases hE : raw.reverse with
    | nil =>
      rw [hE] at h0
      cases h0
    | cons x t =>
      rw [hE] at h0
      replace h0 : x = d0 := by simpa using h0
      exact ⟨t, by rw [h0]⟩
  have hlen2 : ¬((d0 :: tail).length < 2 * p.window_size) := by
    have hL := congrArg List.length hr
    rw [List.length_reverse] at hL
    omega
  have hws2 : ¬(latestIdx (d0 :: tail) < p.window_size) := by
    rw [hr] at hws
    exact hws
  have hmain : generateSignal p i e now raw pos st =
      some (cycleCore p i e (pos.long_tdPosition + pos.long_ydPosition)
        (pos.short_tdPosition + pos.short_ydPosition) (d0 :: tail)
        { st with last_data_time := some d0.ts }) := by
    simp only [generateSignal]
    rw [hr, if_neg hlen2]
    show (if st.last_data_time = some d0.ts then some ([], st) else _) = _
    rw [if_neg hdup, if_neg hfresh]
  constructor
  · intro hup hshort
    rw [hr] at hup
    rw [hr, hmain]
    refine congrArg some ?_
    simp only [cycleCore]
    rw [if_neg hws2]
    simp only [signalBranch]
    rw [hup, if_pos rfl, if_pos hshort]
    simp [List.append_assoc]
  · intro hup hdown hlong
    rw [hr] at hup hdown
    rw [hr, hmain]
    refine congrArg some ?_
    simp only [cycleCore]
    rw [if_neg hws2]
    simp only [signalBranch]
    rw [hup, hdown, if_neg Bool.false_ne_true, if_pos rfl, if_pos hlong]
    simp [List.append_assoc]

/-- C7 witness: breakout-up bar (close 105, volume 100) with a 2-lot short
open and entry price unset — the trace is the closing-buy retry sequence
(3 attempts at 106, 107, 108), the settle sleep, the re-login, then the
opening-long retry sequence (3 attempts at 108, 109, 110). -/
theorem c7_reversal_order_witness :
    generateSignal liveParams 0 0 100 rawUp posShort2 stInit = some (
      (riskExit liveParams 0 0
        (posShort2.long_tdPosition + posShort2.long_ydPosition)
        (posShort2.short_tdPosition + posShort2.short_ydPosition)
        (latestBar rawUp.reverse).close stInit.last_entry_price).1 ++
      (placeWithRetry liveParams (closeShortOrder 0 0
          (latestBar rawUp.reverse).close
          (posShort2.short_tdPosition + posShort2.short_ydPosition)) 2 3 30 ++
        Event.sleep 1 :: Event.relog ::
        placeWithRetry liveParams (openLongOrder liveParams 0 0
          (latestBar rawUp.reverse).close
          (getDynamicVolume liveParams (latestBar rawUp.reverse).volume
            (windowVolumeMean liveParams rawUp.reverse))) 2 3 30),
      { last_signal_time := some (TimeIdx.dt (latestBar rawUp.reverse).ts),
        last_data_time := some (quietBar 1).ts,
        last_entry_price := some (latestBar rawUp.reverse).close }) :=
  (c7_reversal_order liveParams 0 0 100 rawUp posShort2 stInit (quietBar 1)
    (by decide) (by decide) (by decide) (by with_unfolding_all decide)
    (by decide)).1 (by with_unfolding_all decide) (by decide)

end TrendFollow
